import Mathlib

/-!
Shallow embedding of `actix-web-middleware-redirect-https` (src/lib.rs).

The middleware inspects each request: depending on the connection scheme and
the configured `disabled` flag it either forwards the request to the wrapped
service (the next pipeline stage) or answers directly with a 301 redirect
whose `Location` header is `https://{host}{uri}` after the configured
string replacements have been applied in order.

Requests are modelled by the three read-only pieces `call` consults
(connection scheme, connection host, request uri); the wrapped service is a
function returning `Except E ServiceResponse`, mirroring
`Result<ServiceResponse, Error>`; the `Either` of futures returned by `call`
becomes the two-constructor type `CallFuture`. Rust `str::replace` is
embedded at character level (valid UTF-8 is self-synchronizing, so byte-level
matches of a valid pattern always fall on character boundaries).
-/

namespace RedirectHttps

/-- One step list of Rust `str::replace` for a nonempty pattern: scan left to
right, and at each position either consume a full non-overlapping match of
`pat` (emitting `sub`) or keep one character. The extra `fuel` argument makes
the recursion structural; every step consumes at least one character, so any
fuel of at least the length of the scanned list gives the exact Rust result. -/
def replaceCore (pat sub : List Char) : Nat → List Char → List Char
  | _, [] => []
  | 0, l => l
  | fuel + 1, c :: rest =>
    if pat.isPrefixOf (c :: rest) then
      sub ++ replaceCore pat sub fuel (rest.drop (pat.length - 1))
    else
      c :: replaceCore pat sub fuel rest

/-- Rust `str::replace(from, to)`: replace all non-overlapping occurrences of
`pat` in `s` by `sub`, scanning left to right. An empty pattern matches at
every character boundary (Rust `match_indices` semantics), so the result is
`sub` interleaved before, between and after every character of `s`. -/
def rustReplace (s pat sub : String) : String :=
  if pat.data.isEmpty then
    String.mk (sub.data ++ s.data.flatMap fun c => c :: sub.data)
  else
    String.mk (replaceCore pat.data sub.data s.data.length s.data)

/-- The request data `call` reads: `connection_info().scheme()`,
`connection_info().host()` and `uri()` of an actix `ServiceRequest`. -/
structure ServiceRequest where
  scheme : String
  host : String
  uri : String
  deriving DecidableEq

/-- The scheme test on line 102 of src/lib.rs:
`req.connection_info().scheme() == "https"`. -/
def ServiceRequest.secureScheme (req : ServiceRequest) : Bool :=
  req.scheme == "https"

/-- The `RedirectHTTPS` middleware configuration from src/lib.rs: a
`disabled` flag and an ordered list of `(pattern, substitute)` replacements. -/
structure RedirectHTTPS where
  disabled : Bool
  replacements : List (String × String)
  deriving DecidableEq

/-- The Rust `#[derive(Default)]` constructor: `disabled = false` (the `bool`
default) and an empty replacement list (the `Vec` default). -/
def RedirectHTTPS.default : RedirectHTTPS :=
  ⟨false, []⟩

/-- `RedirectHTTPS::with_replacements`: `disabled = false`, replacement list
copied from the argument in order (`replacements.to_vec()`). -/
def RedirectHTTPS.with_replacements (replacements : List (String × String)) : RedirectHTTPS :=
  ⟨false, replacements⟩

/-- `RedirectHTTPS::set_enabled`: stores the negation of the argument in the
`disabled` field and returns the updated configuration. -/
def RedirectHTTPS.set_enabled (self : RedirectHTTPS) (enabled : Bool) : RedirectHTTPS :=
  { self with disabled := !enabled }

/-- Derived view of a configuration: the effective enabled flag. The source
stores its negation in the `disabled` field. -/
def RedirectHTTPS.isEnabled (self : RedirectHTTPS) : Bool :=
  !self.disabled

/-- The parts of an actix `HttpResponse` that `call` constructs: a status
code and a header list. -/
structure HttpResponse where
  status : Nat
  headers : List (String × String)
  deriving DecidableEq

/-- `HttpResponse::MovedPermanently()`: status 301, no headers yet. -/
def HttpResponse.MovedPermanently : HttpResponse :=
  ⟨301, []⟩

/-- `insert_header`: add a header to the response. -/
def HttpResponse.insert_header (self : HttpResponse) (h : String × String) : HttpResponse :=
  ⟨self.status, self.headers ++ [h]⟩

/-- `ServiceResponse::new(request, response)`: an actix service response
pairing the (non-payload part of the) original request with a response. -/
structure ServiceResponse where
  request : ServiceRequest
  response : HttpResponse
  deriving DecidableEq

/-- `RedirectHTTPSService`: the wrapped next stage together with the
configuration captured by `new_transform`. The next stage is modelled as a
function whose result `Except E ServiceResponse` mirrors the resolved
`Result<ServiceResponse, Error>` of its future. -/
structure RedirectHTTPSService (E : Type) where
  service : ServiceRequest → Except E ServiceResponse
  disabled : Bool
  replacements : List (String × String)

/-- `Transform::new_transform` for `RedirectHTTPS`: wrap `service`, copying
the `disabled` flag and the replacement list into the service. -/
def RedirectHTTPS.new_transform {E : Type} (self : RedirectHTTPS)
    (service : ServiceRequest → Except E ServiceResponse) : RedirectHTTPSService E :=
  ⟨service, self.disabled, self.replacements⟩

/-- The `Either` of futures returned by `call`, with each future resolved:
`left` wraps the next stage result (`Either::Left(self.service.call(req))`),
`right` wraps the immediately ready result built by the redirect branch. -/
inductive CallFuture (E : Type) where
  | left : Except E ServiceResponse → CallFuture E
  | right : Except E ServiceResponse → CallFuture E

/-- Whether `call` chose the pass-through branch (`Either::Left`). -/
def CallFuture.isForwarded {E : Type} : CallFuture E → Bool
  | .left _ => true
  | .right _ => false

/-- The replacement loop of `call` (lines 108 to 110 of src/lib.rs):
`for (s1, s2) in replacements { url = url.replace(s1, s2); }`. -/
def applyReplacements (replacements : List (String × String)) (url : String) : String :=
  replacements.foldl (fun u p => rustReplace u p.1 p.2) url

/-- `RedirectHTTPSService::call` (lines 101 to 118 of src/lib.rs). The
pass-through branch fires when `scheme == "https" || !self.disabled`;
otherwise the redirect url `https://{host}{uri}` is computed, the replacement
loop runs, and a ready 301 response with the url in the `location` header is
returned together with the request parts. -/
def RedirectHTTPSService.call {E : Type} (self : RedirectHTTPSService E)
    (req : ServiceRequest) : CallFuture E :=
  if req.secureScheme || !self.disabled then
    CallFuture.left (self.service req)
  else
    let host := req.host
    let uri := req.uri
    let url := "https://" ++ host ++ uri
    let url := applyReplacements self.replacements url
    CallFuture.right (Except.ok
      ⟨req, HttpResponse.MovedPermanently.insert_header ("location", url)⟩)

/-- A concrete insecure request: scheme `http`, host `example.com`, uri `/`. -/
def httpReq : ServiceRequest :=
  ⟨"http", "example.com", "/"⟩

/-- A concrete secure request: scheme `https`, host `example.com`, uri `/`. -/
def httpsReq : ServiceRequest :=
  ⟨"https", "example.com", "/"⟩

/-- A concrete next stage that answers 200 OK. -/
def okStage : ServiceRequest → Except String ServiceResponse :=
  fun r => Except.ok ⟨r, ⟨200, []⟩⟩

/-- A concrete next stage that fails. -/
def failStage : ServiceRequest → Except String ServiceResponse :=
  fun _ => Except.error "downstream failure"

/-- C1: the claim expects an insecure request under an enabled configuration
(the default one) to be answered by a 301 redirect without reaching the next
stage. The code does the opposite: because the pass-through condition on
line 102 is `scheme == "https" || !self.disabled` and an enabled
configuration has `disabled = false`, the insecure request `http`
`example.com` `/` is forwarded to the next stage and no redirect is built. -/
theorem call_enabled_insecure_forwards :
    (RedirectHTTPS.default.new_transform okStage).call httpReq
        = CallFuture.left (okStage httpReq)
      ∧ RedirectHTTPS.default.isEnabled = true :=
  ⟨rfl, rfl⟩

/-- C2: the claim expects an insecure request under a disabled configuration
to be forwarded unchanged. The code does the opposite: with
`set_enabled false` the `disabled` field is `true`, the pass-through
condition `scheme == "https" || !self.disabled` is false on the insecure
request `http` `example.com` `/`, and `call` returns an immediate ready 301
response with `Location: https://example.com/` instead of forwarding. -/
theorem call_disabled_insecure_redirects :
    ((RedirectHTTPS.default.set_enabled false).new_transform okStage).call httpReq
        = CallFuture.right (Except.ok ⟨httpReq, ⟨301, [("location", "https://example.com/")]⟩⟩)
      ∧ (RedirectHTTPS.default.set_enabled false).isEnabled = false :=
  ⟨rfl, rfl⟩

/-- C3: every request whose connection scheme is exactly `https` is forwarded
to the next pipeline stage and the result of that stage is returned
unchanged, whatever the `disabled` flag and the replacement list are. -/
theorem call_secure_forwards {E : Type} (self : RedirectHTTPSService E)
    (req : ServiceRequest) (h : req.scheme = "https") :
    self.call req = CallFuture.left (self.service req) := by
  unfold RedirectHTTPSService.call
  simp [ServiceRequest.secureScheme, h]

/-- Witness for C3 at a concrete secure request and a concrete service. -/
theorem call_secure_forwards_witness :
    (RedirectHTTPS.default.new_transform okStage).call httpsReq
      = CallFuture.left (okStage httpsReq) :=
  call_secure_forwards (RedirectHTTPS.default.new_transform okStage) httpsReq rfl

/-- C4: the replacement pass is a left-to-right fold on the cumulative
result: the head pair is applied first and the remaining pairs act on its
output. On the url `a` the list `(a, b)` then `(b, c)` produces `c` (the
second pair fired on the cumulative result `b`, which never occurs in the
original url), while the swapped list produces `b`: order matters. -/
theorem applyReplacements_cumulative_fold :
    (∀ (p : String × String) (ps : List (String × String)) (url : String),
        applyReplacements (p :: ps) url = applyReplacements ps (rustReplace url p.1 p.2))
      ∧ applyReplacements [("a", "b"), ("b", "c")] "a" = "c"
      ∧ applyReplacements [("b", "c"), ("a", "b")] "a" = "b"
      ∧ applyReplacements [("a", "b"), ("b", "c")] "a"
          ≠ applyReplacements [("b", "c"), ("a", "b")] "a" :=
  ⟨fun _ _ _ => rfl, by decide, by decide, by decide⟩

/-- Witness for C4: the fold equation at the spec example pair `:8080` to
`:8443` on a concrete url. -/
theorem applyReplacements_cumulative_fold_witness :
    applyReplacements [(":8080", ":8443")] "https://example.com:8080/foo?x=1"
      = applyReplacements [] (rustReplace "https://example.com:8080/foo?x=1" ":8080" ":8443") :=
  applyReplacements_cumulative_fold.1 (":8080", ":8443") [] "https://example.com:8080/foo?x=1"

/-- C5: the default constructor yields an enabled configuration with an empty
replacement list, and `with_replacements` yields an enabled configuration
whose replacement list is the argument in order. -/
theorem constructors_enabled (l : List (String × String)) :
    RedirectHTTPS.default.isEnabled = true
      ∧ RedirectHTTPS.default.replacements = []
      ∧ (RedirectHTTPS.with_replacements l).isEnabled = true
      ∧ (RedirectHTTPS.with_replacements l).replacements = l :=
  ⟨rfl, rfl, rfl, rfl⟩

/-- Witness for C5 at the replacement list of the crate doc example. -/
theorem constructors_enabled_witness :
    RedirectHTTPS.default.isEnabled = true
      ∧ RedirectHTTPS.default.replacements = []
      ∧ (RedirectHTTPS.with_replacements [(":8080", ":8443")]).isEnabled = true
      ∧ (RedirectHTTPS.with_replacements [(":8080", ":8443")]).replacements
          = [(":8080", ":8443")] :=
  constructors_enabled [(":8080", ":8443")]

/-- C6: `set_enabled` is idempotent: applying it twice with the same boolean
yields the same configuration as applying it once. -/
theorem set_enabled_idempotent (c : RedirectHTTPS) (b : Bool) :
    (c.set_enabled b).set_enabled b = c.set_enabled b :=
  rfl

/-- Witness for C6: `set_enabled true` applied twice to the default
configuration equals applying it once. -/
theorem set_enabled_idempotent_witness :
    (RedirectHTTPS.default.set_enabled true).set_enabled true
      = RedirectHTTPS.default.set_enabled true :=
  set_enabled_idempotent RedirectHTTPS.default true

/-- C7: `set_enabled b` yields a configuration whose effective enabled flag
is `b` and whose replacement list is exactly the one before the call. -/
theorem set_enabled_flag_and_frame (c : RedirectHTTPS) (b : Bool) :
    (c.set_enabled b).isEnabled = b
      ∧ (c.set_enabled b).replacements = c.replacements := by
  refine ⟨?_, rfl⟩
  simp [RedirectHTTPS.set_enabled, RedirectHTTPS.isEnabled]

/-- Witness for C7 at a concrete configuration and boolean. -/
theorem set_enabled_flag_and_frame_witness :
    ((RedirectHTTPS.with_replacements [(":8080", ":8443")]).set_enabled false).isEnabled = false
      ∧ ((RedirectHTTPS.with_replacements [(":8080", ":8443")]).set_enabled false).replacements
          = (RedirectHTTPS.with_replacements [(":8080", ":8443")]).replacements :=
  set_enabled_flag_and_frame (RedirectHTTPS.with_replacements [(":8080", ":8443")]) false

/-- C8: the filter itself never signals an error: every `call` either
forwards and returns the next stage result unmodified (so a downstream
failure is propagated verbatim), or returns an immediately ready successful
response (the redirect construction is total and always `Ok`). -/
theorem call_never_fails_itself {E : Type} (self : RedirectHTTPSService E)
    (req : ServiceRequest) :
    self.call req = CallFuture.left (self.service req)
      ∨ ∃ resp, self.call req = CallFuture.right (Except.ok resp) := by
  unfold RedirectHTTPSService.call
  cases hb : (req.secureScheme || !self.disabled)
  · exact Or.inr ⟨⟨req, HttpResponse.MovedPermanently.insert_header ("location",
      applyReplacements self.replacements ("https://" ++ req.host ++ req.uri))⟩, by simp [hb]⟩
  · exact Or.inl (by simp [hb])

/-- Witness for C8 at a failing next stage and a concrete request. -/
theorem call_never_fails_itself_witness :
    (RedirectHTTPS.default.new_transform failStage).call httpsReq
        = CallFuture.left (failStage httpsReq)
      ∨ ∃ resp, (RedirectHTTPS.default.new_transform failStage).call httpsReq
          = CallFuture.right (Except.ok resp) :=
  call_never_fails_itself (RedirectHTTPS.default.new_transform failStage) httpsReq

/-- C9: scheme detection is exact string equality with `https`: every scheme
string other than the exact lowercase `https` is classified insecure by the
scheme test of line 102. -/
theorem insecure_unless_exact_https (req : ServiceRequest) (h : req.scheme ≠ "https") :
    req.secureScheme = false := by
  simp [ServiceRequest.secureScheme, h]

/-- Witness for C9: the uppercase scheme `HTTPS` is classified insecure. -/
theorem insecure_unless_exact_https_witness :
    ServiceRequest.secureScheme ⟨"HTTPS", "example.com", "/"⟩ = false :=
  insecure_unless_exact_https ⟨"HTTPS", "example.com", "/"⟩ (by decide)

/-- C10: the pass-through versus redirect decision ignores the replacement
list: two services sharing the next stage and the `disabled` flag but
carrying arbitrary replacement lists choose the same branch on every
request. -/
theorem branch_ignores_replacements {E : Type}
    (s : ServiceRequest → Except E ServiceResponse) (d : Bool)
    (r1 r2 : List (String × String)) (req : ServiceRequest) :
    ((RedirectHTTPSService.mk s d r1).call req).isForwarded
      = ((RedirectHTTPSService.mk s d r2).call req).isForwarded := by
  unfold RedirectHTTPSService.call
  cases hb : (req.secureScheme || !d) <;> simp [hb, CallFuture.isForwarded]

/-- Witness for C10 at two different replacement lists on a concrete
request. -/
theorem branch_ignores_replacements_witness :
    ((RedirectHTTPSService.mk okStage true []).call httpReq).isForwarded
      = ((RedirectHTTPSService.mk okStage true [(":8080", ":8443")]).call httpReq).isForwarded :=
  branch_ignores_replacements okStage true [] [(":8080", ":8443")] httpReq

end RedirectHttps
